import Mathlib

/-!
# The `reset-password` maintenance command (`src/bin/reset_password.go`)

A shallow embedding of `resetPasswordCmd.Run`.  The command is one sequential
function that talks to collaborators living in other packages (the database
driver, the migration engine, the server constructor, the store and the APIv2
service).  Their answers are supplied by a `World`; the calls the command makes
are recorded, in program order, in a list of `Event`s, and the place where the
function returns is recorded as an `Outcome`.

Go strings are modelled by Lean strings (sequences of Unicode code points, so
byte sequences that are not valid UTF-8 are outside the model); `len` is the
UTF-8 byte length, as in Go.
-/

namespace ResetPassword

/-! ## Strings -/

/-- Go `unicode.IsSpace`: the Latin-1 spaces `\t \n \v \f \r`, space, U+0085,
U+00A0, and the code points of category Z / property Pattern_White_Space. -/
def isSpace (c : Char) : Bool :=
  let n := c.toNat
  n == 0x09 || n == 0x0A || n == 0x0B || n == 0x0C || n == 0x0D || n == 0x20 ||
  n == 0x85 || n == 0xA0 || n == 0x1680 || (0x2000 ≤ n && n ≤ 0x200A) ||
  n == 0x2028 || n == 0x2029 || n == 0x202F || n == 0x205F || n == 0x3000

/-- Go `strings.TrimSpace`: the string without its leading and trailing white
space, as defined by Unicode. -/
def TrimSpace (s : String) : String :=
  ⟨((s.data.dropWhile isSpace).reverse.dropWhile isSpace).reverse⟩

/-- Go `len` on a string: the number of bytes of its UTF-8 encoding. -/
def len (s : String) : Nat := s.utf8ByteSize

/-- Go `fmt.Sprintf("users/%s", username)`. -/
def userName (username : String) : String := "users/" ++ username

/-! ## Data -/

/-- Go `int` arithmetic on a 64-bit platform wraps around. -/
def wrapInt64 (x : Int) : Int := (x + 2 ^ 63) % 2 ^ 64 - 2 ^ 63

/-- The part of the global `profile` that the command reads or writes. -/
structure Profile where
  Port : Int
  deriving DecidableEq, Repr

/-- The four flag variables (`init`, lines 163-169); `id` defaults to `-1`, the
strings default to `""`. -/
structure Flags where
  email : String
  id : Int
  password : String
  username : String
  deriving DecidableEq, Repr

/-- The fields of `store.FindUser` the command sets (`ID: &id` or
`Email: &email`); an unset pointer is `none`. -/
structure FindUser where
  ID : Option Int
  Email : Option String
  deriving DecidableEq, Repr

/-- The fields of a `store.User` row the command can observe. -/
structure StoreUser where
  ID : Int
  Username : String
  Email : String
  deriving DecidableEq, Repr

/-- The fields of `apiv2pb.User` the command sets; `var user apiv2pb.User`
starts with both empty. -/
structure User where
  Name : String
  Password : String
  deriving DecidableEq, Repr

/-- Go `fieldmaskpb.FieldMask`. -/
structure FieldMask where
  Paths : List String
  deriving DecidableEq, Repr

/-- Go `apiv2pb.UpdateUserRequest`. -/
structure UpdateUserRequest where
  User : User
  UpdateMask : FieldMask
  deriving DecidableEq, Repr

/-- The field of `apiv1.UpdateUserRequest` the command sets
(`Password: &user.Password`). -/
structure APIv1UpdateUserRequest where
  Password : Option String
  deriving DecidableEq, Repr

/-- What `server.NewServer` hands back, as far as the command uses it. -/
structure Server where
  Secret : String
  deriving DecidableEq, Repr

/-- The two ways the legacy validation rejects a password. -/
inductive ValidationError where
  | passwordTooShort
  | passwordTooLong
  deriving DecidableEq, Repr

/-- Modelled from the spec: `apiv1.UpdateUserRequest.Validate` is defined in
package `api/v1`, which is not among the sources.  The spec (4.3, 7) and the
comment at lines 127-128 say it rejects a password whose length is below 3 or
above 512; the other fields of the request are unset here. -/
def Validate (r : APIv1UpdateUserRequest) : Option ValidationError :=
  match r.Password with
  | none => none
  | some pw =>
    if len pw < 3 then some .passwordTooShort
    else if 512 < len pw then some .passwordTooLong
    else none

/-! ## Collaborators -/

/-- The answers of the collaborators.  Every collaborator is called at most
once per run, so an answer is a function of the arguments of the call. -/
structure World where
  NewDBDriver : Profile → Except String Unit
  Migrate : Except String Unit
  NewServer : Profile → Except String Server
  ListUsers : FindUser → Except String (List StoreUser)
  UpdateUser : String → UpdateUserRequest → Except String User

/-- A call made by the command.  `UpdateUser username req` is
`apiV2Service.UpdateUser(ctx, &req)` with `username` stored in `ctx` under
`apiv2.UsernameContextKey`. -/
inductive Event where
  | NewDBDriver (profile : Profile)
  | Migrate
  | NewServer (profile : Profile)
  | ListUsers (find : FindUser)
  | Validate (req : APIv1UpdateUserRequest)
  | UpdateUser (username : String) (req : UpdateUserRequest)
  | Shutdown
  deriving DecidableEq, Repr

/-- The return site of `Run`, named after the spec's error taxonomy (section 7).
`ServerInitFailure` (line 70) and `ListUsersFailure` (lines 85, 113) are return
sites of the code that the taxonomy does not name. -/
inductive Outcome where
  | MissingIdentifier
  | MissingPassword
  | DriverInitFailure (err : String)
  | MigrationFailure (err : String)
  | ServerInitFailure (err : String)
  | ListUsersFailure (err : String)
  | UserNotFoundByID (id : Int)
  | UserNotFoundByEmail (email : String)
  | LegacyValidationFailure (err : ValidationError)
  | UpdateFailure (err : String)
  | Success (updateUser : User)
  deriving DecidableEq, Repr

/-! ## The command -/

/-- Lines 73-125: the `switch` that resolves the target.  Arguments are the
trimmed `username` and `email` and the flags; the result is either the return
site reached inside the switch, or the (possibly reassigned) `username` and the
`user` value, together with the calls made. -/
def resolve (w : World) (username email : String) (f : Flags) :
    Except Outcome (String × User) × List Event :=
  if f.id ≠ -1 then
    let findUser : FindUser := { ID := some f.id, Email := none }
    match w.ListUsers findUser with
    | .error e => (.error (.ListUsersFailure e), [.ListUsers findUser])
    | .ok [] => (.error (.UserNotFoundByID f.id), [.ListUsers findUser])
    | .ok (u :: _) =>
      (.ok (u.Username, { Name := userName u.Username, Password := f.password }),
        [.ListUsers findUser])
  else if username ≠ "" then
    (.ok (username, { Name := userName username, Password := TrimSpace f.password }), [])
  else if email ≠ "" then
    let findUser : FindUser := { ID := none, Email := some email }
    match w.ListUsers findUser with
    | .error e => (.error (.ListUsersFailure e), [.ListUsers findUser])
    | .ok [] => (.error (.UserNotFoundByEmail email), [.ListUsers findUser])
    | .ok (u :: _) =>
      (.ok (u.Username, { Name := userName u.Username, Password := TrimSpace f.password }),
        [.ListUsers findUser])
  else
    (.ok (username, { Name := "", Password := "" }), [])

/-- Lines 127-158: the legacy validation, the update request and the call of
the APIv2 service. -/
def validateAndUpdate (w : World) (username : String) (user : User) :
    Outcome × List Event :=
  let apiv1UpdateUserRequest : APIv1UpdateUserRequest := { Password := some user.Password }
  match Validate apiv1UpdateUserRequest with
  | some validationErr =>
    (.LegacyValidationFailure validationErr, [.Validate apiv1UpdateUserRequest])
  | none =>
    let updateUserRequest : UpdateUserRequest :=
      { User := user, UpdateMask := { Paths := ["password"] } }
    match w.UpdateUser username updateUserRequest with
    | .error e =>
      (.UpdateFailure e,
        [.Validate apiv1UpdateUserRequest, .UpdateUser username updateUserRequest])
    | .ok updateUser =>
      (.Success updateUser,
        [.Validate apiv1UpdateUserRequest, .UpdateUser username updateUserRequest, .Shutdown])

/-- The function `resetPasswordCmd.Run` (lines 31-159). -/
def Run (w : World) (profile : Profile) (f : Flags) : Outcome × List Event :=
  let username := TrimSpace f.username
  let email := TrimSpace f.email
  if username = "" ∧ email = "" ∧ f.id = -1 then
    (.MissingIdentifier, [])
  else if TrimSpace f.password = "" then
    (.MissingPassword, [])
  else
    match w.NewDBDriver profile with
    | .error e => (.DriverInitFailure e, [.NewDBDriver profile])
    | .ok _ =>
      match w.Migrate with
      | .error e => (.MigrationFailure e, [.NewDBDriver profile, .Migrate])
      | .ok _ =>
        let profile' : Profile := { profile with Port := wrapInt64 (profile.Port - 5) }
        match w.NewServer profile' with
        | .error e =>
          (.ServerInitFailure e, [.NewDBDriver profile, .Migrate, .NewServer profile'])
        | .ok _ =>
          let boot : List Event := [.NewDBDriver profile, .Migrate, .NewServer profile']
          match resolve w username email f with
          | (.error o, evs) => (o, boot ++ evs)
          | (.ok (username, user), evs) =>
            let r := validateAndUpdate w username user
            (r.1, boot ++ evs ++ r.2)

/-! ## Reading a trace -/

/-- The filters of the `ListUsers` calls of a trace, in order. -/
def lookups (tr : List Event) : List FindUser :=
  tr.filterMap fun e => match e with
    | .ListUsers q => some q
    | _ => none

/-- The requests checked by the legacy validation, in order. -/
def validations (tr : List Event) : List APIv1UpdateUserRequest :=
  tr.filterMap fun e => match e with
    | .Validate r => some r
    | _ => none

/-- The `UpdateUser` calls of a trace, in order: context username and request. -/
def updates (tr : List Event) : List (String × UpdateUserRequest) :=
  tr.filterMap fun e => match e with
    | .UpdateUser u r => some (u, r)
    | _ => none

/-- Calls that read or write user records: `ListUsers` and `UpdateUser`. -/
def Event.isUserData : Event → Bool
  | .ListUsers _ => true
  | .UpdateUser _ _ => true
  | _ => false

/-- The return sites that lie before the update call (lines 37-137). -/
def Outcome.beforeUpdate : Outcome → Bool
  | .UpdateFailure _ => false
  | .Success _ => false
  | _ => true

/-- A world in which every collaborator succeeds: `ListUsers` finds the rows of
`users` that match the filter, `UpdateUser` echoes the user of the request. -/
def okWorld (users : List StoreUser) : World where
  NewDBDriver := fun _ => .ok ()
  Migrate := .ok ()
  NewServer := fun _ => .ok { Secret := "secret" }
  ListUsers := fun q => .ok (users.filter fun u =>
    (match q.ID with | some i => decide (u.ID = i) | none => true) &&
    (match q.Email with | some e => decide (u.Email = e) | none => true))
  UpdateUser := fun _ r => .ok r.User

/-- A world whose driver cannot be opened. -/
def noDriverWorld : World :=
  { okWorld [] with NewDBDriver := fun _ => .error "no driver" }

/-- A world whose migration fails. -/
def noMigrateWorld : World :=
  { okWorld [] with Migrate := .error "migration failed" }

/-- A world whose store answers every `ListUsers` query with an error. -/
def noListWorld : World :=
  { okWorld [] with ListUsers := fun _ => .error "list failed" }

/-- A sample store. -/
def sampleUsers : List StoreUser :=
  [{ ID := 5, Username := "alice", Email := "alice@example.com" },
   { ID := 7, Username := "bob", Email := "bob@example.com" }]

/-- A sample profile. -/
def sampleProfile : Profile := { Port := 8081 }

/-- Sample flags: an id together with a username that names nobody. -/
def flagsByID : Flags := ⟨"", 5, "newpass123", "x"⟩

/-- Sample flags: a username with surrounding blanks. -/
def flagsByUsername : Flags := ⟨"", -1, "newpass123", "  bob  "⟩

/-- Sample flags: an email only. -/
def flagsByEmail : Flags := ⟨" alice@example.com ", -1, "newpass123", ""⟩

/-- Sample flags: a username and a two-byte password. -/
def flagsShortPassword : Flags := ⟨"", -1, "ab", "bob"⟩

/-- Sample flags: a username and a three-byte password of which two bytes are
surrounding blanks. -/
def flagsPaddedPassword : Flags := ⟨"", -1, " a ", "bob"⟩

/-- A password of `n` bytes. -/
def longPassword (n : Nat) : String := ⟨List.replicate n 'a'⟩

/-- Sample flags: a username and a password of `n` bytes. -/
def flagsLongPassword (n : Nat) : Flags := ⟨"", -1, longPassword n, "bob"⟩

/-- Sample flags: an id that no row has. -/
def flagsUnknownID : Flags := ⟨"", 999, "newpass123", ""⟩

/-- Sample flags: an email that no row has. -/
def flagsUnknownEmail : Flags := ⟨"nobody@example.com", -1, "newpass123", ""⟩

/-- The profile after `profile.Port -= 5` (line 63). -/
def shifted (profile : Profile) : Profile :=
  { profile with Port := wrapInt64 (profile.Port - 5) }

/-- The three bootstrap calls of a run that got past `server.NewServer`. -/
def bootCalls (profile : Profile) : List Event :=
  [.NewDBDriver profile, .Migrate, .NewServer (shifted profile)]

/-- The input checks of lines 37 and 43 both pass. -/
def InputOK (f : Flags) : Prop :=
  ¬(TrimSpace f.username = "" ∧ TrimSpace f.email = "" ∧ f.id = -1) ∧
  TrimSpace f.password ≠ ""

instance (f : Flags) : Decidable (InputOK f) := by
  unfold InputOK; infer_instance

/-- The driver opens, the migration runs and the server is constructed. -/
def BootOK (w : World) (profile : Profile) : Prop :=
  w.NewDBDriver profile = .ok () ∧ w.Migrate = .ok () ∧
  ∃ s, w.NewServer (shifted profile) = .ok s

/-- The successful ways through the `switch` of lines 75-125, for flags that
passed the input checks: canonical username, `user` value and calls made. -/
inductive Resolved (w : World) (f : Flags) : String → User → List Event → Prop
  | byID (u : StoreUser) (us : List StoreUser) :
      f.id ≠ -1 → w.ListUsers ⟨some f.id, none⟩ = .ok (u :: us) →
      Resolved w f u.Username ⟨userName u.Username, f.password⟩
        [.ListUsers ⟨some f.id, none⟩]
  | byUsername :
      f.id = -1 → TrimSpace f.username ≠ "" →
      Resolved w f (TrimSpace f.username)
        ⟨userName (TrimSpace f.username), TrimSpace f.password⟩ []
  | byEmail (u : StoreUser) (us : List StoreUser) :
      f.id = -1 → TrimSpace f.username = "" → TrimSpace f.email ≠ "" →
      w.ListUsers ⟨none, some (TrimSpace f.email)⟩ = .ok (u :: us) →
      Resolved w f u.Username ⟨userName u.Username, TrimSpace f.password⟩
        [.ListUsers ⟨none, some (TrimSpace f.email)⟩]

/-- The ways through `Run`, one constructor per return site (the two lookups
share their shape but not their filter). -/
inductive Path (w : World) (profile : Profile) (f : Flags) : Outcome × List Event → Prop
  | missingIdentifier :
      TrimSpace f.username = "" → TrimSpace f.email = "" → f.id = -1 →
      Path w profile f (.MissingIdentifier, [])
  | missingPassword :
      ¬(TrimSpace f.username = "" ∧ TrimSpace f.email = "" ∧ f.id = -1) →
      TrimSpace f.password = "" →
      Path w profile f (.MissingPassword, [])
  | driverInit (err : String) :
      InputOK f → w.NewDBDriver profile = .error err →
      Path w profile f (.DriverInitFailure err, [.NewDBDriver profile])
  | migration (err : String) :
      InputOK f → w.NewDBDriver profile = .ok () → w.Migrate = .error err →
      Path w profile f (.MigrationFailure err, [.NewDBDriver profile, .Migrate])
  | serverInit (err : String) :
      InputOK f → w.NewDBDriver profile = .ok () → w.Migrate = .ok () →
      w.NewServer (shifted profile) = .error err →
      Path w profile f (.ServerInitFailure err, bootCalls profile)
  | listFailureByID (err : String) :
      InputOK f → BootOK w profile → f.id ≠ -1 →
      w.ListUsers ⟨some f.id, none⟩ = .error err →
      Path w profile f (.ListUsersFailure err,
        bootCalls profile ++ [.ListUsers ⟨some f.id, none⟩])
  | notFoundByID :
      InputOK f → BootOK w profile → f.id ≠ -1 →
      w.ListUsers ⟨some f.id, none⟩ = .ok [] →
      Path w profile f (.UserNotFoundByID f.id,
        bootCalls profile ++ [.ListUsers ⟨some f.id, none⟩])
  | listFailureByEmail (err : String) :
      InputOK f → BootOK w profile →
      f.id = -1 → TrimSpace f.username = "" → TrimSpace f.email ≠ "" →
      w.ListUsers ⟨none, some (TrimSpace f.email)⟩ = .error err →
      Path w profile f (.ListUsersFailure err,
        bootCalls profile ++ [.ListUsers ⟨none, some (TrimSpace f.email)⟩])
  | notFoundByEmail :
      InputOK f → BootOK w profile →
      f.id = -1 → TrimSpace f.username = "" → TrimSpace f.email ≠ "" →
      w.ListUsers ⟨none, some (TrimSpace f.email)⟩ = .ok [] →
      Path w profile f (.UserNotFoundByEmail (TrimSpace f.email),
        bootCalls profile ++ [.ListUsers ⟨none, some (TrimSpace f.email)⟩])
  | legacyValidation (username : String) (user : User) (lk : List Event)
      (err : ValidationError) :
      InputOK f → BootOK w profile → Resolved w f username user lk →
      Validate ⟨some user.Password⟩ = some err →
      Path w profile f (.LegacyValidationFailure err,
        bootCalls profile ++ lk ++ [.Validate ⟨some user.Password⟩])
  | updateFailure (username : String) (user : User) (lk : List Event) (err : String) :
      InputOK f → BootOK w profile → Resolved w f username user lk →
      Validate ⟨some user.Password⟩ = none →
      w.UpdateUser username ⟨user, ⟨["password"]⟩⟩ = .error err →
      Path w profile f (.UpdateFailure err,
        bootCalls profile ++ lk ++
          [.Validate ⟨some user.Password⟩, .UpdateUser username ⟨user, ⟨["password"]⟩⟩])
  | success (username : String) (user : User) (lk : List Event) (updateUser : User) :
      InputOK f → BootOK w profile → Resolved w f username user lk →
      Validate ⟨some user.Password⟩ = none →
      w.UpdateUser username ⟨user, ⟨["password"]⟩⟩ = .ok updateUser →
      Path w profile f (.Success updateUser,
        bootCalls profile ++ lk ++
          [.Validate ⟨some user.Password⟩, .UpdateUser username ⟨user, ⟨["password"]⟩⟩,
           .Shutdown])

/-! ## The ways through the command -/

/-- The second half of a run, once the target is resolved. -/
theorem path_of_resolved (w : World) (profile : Profile) (f : Flags)
    (hin : InputOK f) (hb : BootOK w profile) (username : String) (user : User)
    (lk : List Event) (hr : Resolved w f username user lk) :
    Path w profile f ((validateAndUpdate w username user).1,
      bootCalls profile ++ lk ++ (validateAndUpdate w username user).2) := by
  cases hv : Validate ⟨some user.Password⟩ with
  | some err =>
    simpa [validateAndUpdate, hv] using Path.legacyValidation username user lk err hin hb hr hv
  | none =>
    cases hu : w.UpdateUser username ⟨user, ⟨["password"]⟩⟩ with
    | error err =>
      simpa [validateAndUpdate, hv, hu] using
        Path.updateFailure username user lk err hin hb hr hv hu
    | ok updateUser =>
      simpa [validateAndUpdate, hv, hu] using
        Path.success username user lk updateUser hin hb hr hv hu

/-- Every run follows one of the ways listed in `Path`. -/
theorem run_path (w : World) (profile : Profile) (f : Flags) :
    Path w profile f (Run w profile f) := by
  unfold Run
  by_cases hc : TrimSpace f.username = "" ∧ TrimSpace f.email = "" ∧ f.id = -1
  · simpa [hc] using Path.missingIdentifier hc.1 hc.2.1 hc.2.2
  by_cases hp : TrimSpace f.password = ""
  · simpa [hc, hp] using Path.missingPassword hc hp
  have hin : InputOK f := ⟨hc, hp⟩
  simp only [hc, hp, if_false]
  cases hd : w.NewDBDriver profile with
  | error err => exact Path.driverInit err hin hd
  | ok a =>
    cases hm : w.Migrate with
    | error err => exact Path.migration err hin hd hm
    | ok b =>
      cases hs : w.NewServer (shifted profile) with
      | error err =>
        have hs' : w.NewServer { Port := wrapInt64 (profile.Port - 5) } = .error err := hs
        simpa [hs', shifted, bootCalls] using Path.serverInit err hin hd hm hs
      | ok s =>
        have hb : BootOK w profile := ⟨hd, hm, s, hs⟩
        have hs' : w.NewServer { Port := wrapInt64 (profile.Port - 5) } = .ok s := hs
        simp only [hs']
        by_cases hid : f.id = -1
        · by_cases hu : TrimSpace f.username = ""
          · have he : TrimSpace f.email ≠ "" := fun he => hc ⟨hu, he, hid⟩
            cases hl : w.ListUsers ⟨none, some (TrimSpace f.email)⟩ with
            | error err =>
              simpa [resolve, hid, hu, he, hl, bootCalls, shifted] using
                Path.listFailureByEmail err hin hb hid hu he hl
            | ok us =>
              cases us with
              | nil =>
                simpa [resolve, hid, hu, he, hl, bootCalls, shifted] using
                  Path.notFoundByEmail hin hb hid hu he hl
              | cons u us =>
                have := path_of_resolved w profile f hin hb _ _ _
                  (Resolved.byEmail u us hid hu he hl)
                simpa [resolve, hid, hu, he, hl, bootCalls, shifted] using this
          · have := path_of_resolved w profile f hin hb _ _ _ (Resolved.byUsername hid hu)
            simpa [resolve, hid, hu, bootCalls, shifted] using this
        · cases hl : w.ListUsers ⟨some f.id, none⟩ with
          | error err =>
            simpa [resolve, hid, hl, bootCalls, shifted] using
              Path.listFailureByID err hin hb hid hl
          | ok us =>
            cases us with
            | nil =>
              simpa [resolve, hid, hl, bootCalls, shifted] using
                Path.notFoundByID hin hb hid hl
            | cons u us =>
              have := path_of_resolved w profile f hin hb _ _ _ (Resolved.byID u us hid hl)
              simpa [resolve, hid, hl, bootCalls, shifted] using this

/-- A successful way through the switch is what `resolve` computes. -/
theorem resolve_of_resolved (w : World) (f : Flags) (username : String) (user : User)
    (lk : List Event) (hr : Resolved w f username user lk) :
    resolve w (TrimSpace f.username) (TrimSpace f.email) f = (.ok (username, user), lk) := by
  cases hr with
  | byID u us hid hl => simp [resolve, hid, hl]
  | byUsername hid hu => simp [resolve, hid, hu]
  | byEmail u us hid hu he hl => simp [resolve, hid, hu, he, hl]

/-- The calls made inside the switch are lookups. -/
theorem resolved_calls (w : World) (f : Flags) (username : String) (user : User)
    (lk : List Event) (hr : Resolved w f username user lk) :
    lk = [] ∨ ∃ q, lk = [Event.ListUsers q] := by
  cases hr <;> simp

/-- An element of a list that differs from its first two entries sits behind
them. -/
theorem behind_first_two {α : Type} (a b e : α) (rest pre post : List α)
    (h : a :: b :: rest = pre ++ e :: post) (ha : e ≠ a) (hb : e ≠ b) :
    ∃ rest', pre = a :: b :: rest' := by
  cases pre with
  | nil => simp at h; exact absurd h.1.symm ha
  | cons x pre =>
    cases pre with
    | nil => simp at h; exact absurd h.2.1.symm hb
    | cons y pre =>
      simp at h
      exact ⟨pre, by rw [h.1, h.2.1]⟩

/-- Either a run makes no call on user records, or its trace starts with a
successful driver open followed by a successful migration. -/
theorem boot_first (w : World) (profile : Profile) (f : Flags) :
    (∀ e ∈ (Run w profile f).2, e.isUserData = false) ∨
    (w.NewDBDriver profile = .ok () ∧ w.Migrate = .ok () ∧
      ∃ rest, (Run w profile f).2 = .NewDBDriver profile :: .Migrate :: rest) := by
  have hp := run_path w profile f
  generalize Run w profile f = r at hp ⊢
  cases hp with
  | missingIdentifier => simp
  | missingPassword => simp
  | driverInit => simp [Event.isUserData]
  | migration => simp [Event.isUserData]
  | serverInit => simp [bootCalls, Event.isUserData]
  | listFailureByID _ _ hb => exact Or.inr ⟨hb.1, hb.2.1, by simp [bootCalls]⟩
  | notFoundByID _ hb => exact Or.inr ⟨hb.1, hb.2.1, by simp [bootCalls]⟩
  | listFailureByEmail _ _ hb => exact Or.inr ⟨hb.1, hb.2.1, by simp [bootCalls]⟩
  | notFoundByEmail _ hb => exact Or.inr ⟨hb.1, hb.2.1, by simp [bootCalls]⟩
  | legacyValidation _ _ _ _ _ hb => exact Or.inr ⟨hb.1, hb.2.1, by simp [bootCalls]⟩
  | updateFailure _ _ _ _ _ hb => exact Or.inr ⟨hb.1, hb.2.1, by simp [bootCalls]⟩
  | success _ _ _ _ _ hb => exact Or.inr ⟨hb.1, hb.2.1, by simp [bootCalls]⟩

/-! ## Input checks -/

/-- C1: when `id` is the sentinel `-1` and both `username` and `email` are empty
after trimming, the command ends at `MissingIdentifier`, whatever the password
and whatever the collaborators would answer, and has called no collaborator at
all (no driver open, no migration, no `ListUsers`, no `UpdateUser`). -/
theorem missing_identifier_no_storage (w : World) (profile : Profile) (f : Flags)
    (hid : f.id = -1) (hu : TrimSpace f.username = "") (he : TrimSpace f.email = "") :
    Run w profile f = (Outcome.MissingIdentifier, []) := by
  simp [Run, hid, hu, he]

/-- Witness for C1: blank username and email, no id, a perfectly good password. -/
theorem missing_identifier_no_storage_witness :
    Run (okWorld sampleUsers) sampleProfile ⟨" \t", -1, "newpass123", "  "⟩ =
      (Outcome.MissingIdentifier, []) :=
  missing_identifier_no_storage (okWorld sampleUsers) sampleProfile
    ⟨" \t", -1, "newpass123", "  "⟩ (by decide) (by decide) (by decide)

/-- C2, as stated, fails: with a blank password and no identifier supplied the
command ends at `MissingIdentifier`, not at `MissingPassword`. -/
theorem blank_password_without_identifier :
    TrimSpace (Flags.mk "" (-1) "" "").password = "" ∧
    (Run (okWorld sampleUsers) sampleProfile ⟨"", -1, "", ""⟩).1 ≠ Outcome.MissingPassword := by
  decide

/-- C2, amended: when the password is empty after trimming, the command calls no
collaborator, and it ends at `MissingPassword` as soon as at least one
identifier is supplied (`id` not `-1`, or a username or email that is not empty
after trimming); whichever identifiers are supplied makes no difference. -/
theorem blank_password_no_storage (w : World) (profile : Profile) (f : Flags)
    (hp : TrimSpace f.password = "") :
    (Run w profile f).2 = [] ∧
    ((f.id ≠ -1 ∨ TrimSpace f.username ≠ "" ∨ TrimSpace f.email ≠ "") →
      Run w profile f = (Outcome.MissingPassword, [])) := by
  by_cases h : TrimSpace f.username = "" ∧ TrimSpace f.email = "" ∧ f.id = -1
  · refine ⟨by simp [Run, h], ?_⟩
    rintro (h1 | h1 | h1)
    · exact absurd h.2.2 h1
    · exact absurd h.1 h1
    · exact absurd h.2.1 h1
  · exact ⟨by simp [Run, h, hp], fun _ => by simp [Run, h, hp]⟩

/-- Witness for C2 (amended): an id and a username are supplied, the password is
white space only. -/
theorem blank_password_no_storage_witness :
    (Run (okWorld sampleUsers) sampleProfile ⟨"", 5, " \n ", "alice"⟩).2 = [] ∧
    ((5 : Int) ≠ -1 ∨ TrimSpace "alice" ≠ "" ∨ TrimSpace "" ≠ "" →
      Run (okWorld sampleUsers) sampleProfile ⟨"", 5, " \n ", "alice"⟩ =
        (Outcome.MissingPassword, [])) :=
  blank_password_no_storage (okWorld sampleUsers) sampleProfile ⟨"", 5, " \n ", "alice"⟩
    (by decide)

/-! ## Resolution -/

/-- C3: for flags that pass the input checks, in a run whose bootstrap succeeds,
exactly one strategy is used, by the precedence id, then username, then email.
If `id` is not `-1` the only lookup is `ListUsers` by that id, whatever username
and email are: a lookup error ends the run at `ListUsersFailure` and an empty
result at `UserNotFound`, in both cases right after the lookup, and when a row
is found the validation is run on the supplied password and the update, made
exactly when the validation accepts, addresses that row's username.  Otherwise,
if the trimmed username is not empty, no lookup is made and the trimmed
username is addressed, whatever email is.  Otherwise the only lookup is
`ListUsers` by the trimmed email, with the same three continuations. -/
theorem resolution_precedence (w : World) (profile : Profile) (f : Flags)
    (hin : InputOK f) (hb : BootOK w profile) :
    (f.id ≠ -1 →
      lookups (Run w profile f).2 = [⟨some f.id, none⟩] ∧
      (∀ err, w.ListUsers ⟨some f.id, none⟩ = .error err →
        Run w profile f =
          (.ListUsersFailure err, bootCalls profile ++ [.ListUsers ⟨some f.id, none⟩])) ∧
      (w.ListUsers ⟨some f.id, none⟩ = .ok [] →
        Run w profile f =
          (.UserNotFoundByID f.id, bootCalls profile ++ [.ListUsers ⟨some f.id, none⟩])) ∧
      ∀ u us, w.ListUsers ⟨some f.id, none⟩ = .ok (u :: us) →
        validations (Run w profile f).2 = [⟨some f.password⟩] ∧
        (∀ cr ∈ updates (Run w profile f).2,
          cr = (u.Username, ⟨⟨"users/" ++ u.Username, f.password⟩, ⟨["password"]⟩⟩)) ∧
        (Validate ⟨some f.password⟩ = none →
          updates (Run w profile f).2 =
            [(u.Username, ⟨⟨"users/" ++ u.Username, f.password⟩, ⟨["password"]⟩⟩)])) ∧
    (f.id = -1 → TrimSpace f.username ≠ "" →
      lookups (Run w profile f).2 = [] ∧
      validations (Run w profile f).2 = [⟨some (TrimSpace f.password)⟩] ∧
      (∀ cr ∈ updates (Run w profile f).2,
        cr = (TrimSpace f.username,
          ⟨⟨"users/" ++ TrimSpace f.username, TrimSpace f.password⟩, ⟨["password"]⟩⟩)) ∧
      (Validate ⟨some (TrimSpace f.password)⟩ = none →
        updates (Run w profile f).2 =
          [(TrimSpace f.username,
            ⟨⟨"users/" ++ TrimSpace f.username, TrimSpace f.password⟩, ⟨["password"]⟩⟩)])) ∧
    (f.id = -1 → TrimSpace f.username = "" →
      lookups (Run w profile f).2 = [⟨none, some (TrimSpace f.email)⟩] ∧
      (∀ err, w.ListUsers ⟨none, some (TrimSpace f.email)⟩ = .error err →
        Run w profile f =
          (.ListUsersFailure err,
            bootCalls profile ++ [.ListUsers ⟨none, some (TrimSpace f.email)⟩])) ∧
      (w.ListUsers ⟨none, some (TrimSpace f.email)⟩ = .ok [] →
        Run w profile f =
          (.UserNotFoundByEmail (TrimSpace f.email),
            bootCalls profile ++ [.ListUsers ⟨none, some (TrimSpace f.email)⟩])) ∧
      ∀ u us, w.ListUsers ⟨none, some (TrimSpace f.email)⟩ = .ok (u :: us) →
        validations (Run w profile f).2 = [⟨some (TrimSpace f.password)⟩] ∧
        (∀ cr ∈ updates (Run w profile f).2,
          cr = (u.Username,
            ⟨⟨"users/" ++ u.Username, TrimSpace f.password⟩, ⟨["password"]⟩⟩)) ∧
        (Validate ⟨some (TrimSpace f.password)⟩ = none →
          updates (Run w profile f).2 =
            [(u.Username,
              ⟨⟨"users/" ++ u.Username, TrimSpace f.password⟩, ⟨["password"]⟩⟩)])) := by
  have h := run_path w profile f
  generalize Run w profile f = r at h ⊢
  obtain ⟨hd, hm, s, hs⟩ := hb
  obtain ⟨hc, hp⟩ := hin
  cases h with
  | missingIdentifier h1 h2 h3 => exact absurd ⟨h1, h2, h3⟩ hc
  | missingPassword _ h2 => exact absurd h2 hp
  | driverInit err _ h2 => simp [hd] at h2
  | migration err _ _ h3 => simp [hm] at h3
  | serverInit err _ _ _ h4 => simp [hs] at h4
  | listFailureByID err _ _ hid hl => simp [lookups, bootCalls, hid, hl]
  | notFoundByID _ _ hid hl => simp [lookups, bootCalls, hid, hl]
  | listFailureByEmail err _ _ hid hu he hl => simp [lookups, bootCalls, hid, hu, hl]
  | notFoundByEmail _ _ hid hu he hl => simp [lookups, bootCalls, hid, hu, hl]
  | legacyValidation username user lk err _ _ hr hv =>
    cases hr with
    | byID u us hid hl => simp [lookups, validations, updates, bootCalls, hid, hl, hv]
    | byUsername hid hu => simp [lookups, validations, updates, bootCalls, hid, hu, hv]
    | byEmail u us hid hu he hl =>
      simp [lookups, validations, updates, bootCalls, hid, hu, hl, hv]
  | updateFailure username user lk err _ _ hr hv hupd =>
    cases hr with
    | byID u us hid hl =>
      simp [lookups, validations, updates, bootCalls, hid, hl, userName]
    | byUsername hid hu =>
      simp [lookups, validations, updates, bootCalls, hid, hu, userName]
    | byEmail u us hid hu he hl =>
      simp [lookups, validations, updates, bootCalls, hid, hu, hl, userName]
  | success username user lk updateUser _ _ hr hv hupd =>
    cases hr with
    | byID u us hid hl =>
      simp [lookups, validations, updates, bootCalls, hid, hl, userName]
    | byUsername hid hu =>
      simp [lookups, validations, updates, bootCalls, hid, hu, userName]
    | byEmail u us hid hu he hl =>
      simp [lookups, validations, updates, bootCalls, hid, hu, hl, userName]

/-- Witness for C3: id 5 and username "x" are both supplied.  The lookup is by
id and the update addresses the row found, "alice", not "x"; and when the
lookup fails the run ends there, with no validation and no update of "x". -/
theorem resolution_precedence_witness :
    InputOK flagsByID ∧ BootOK (okWorld sampleUsers) sampleProfile ∧
    lookups (Run (okWorld sampleUsers) sampleProfile flagsByID).2 = [⟨some 5, none⟩] ∧
    updates (Run (okWorld sampleUsers) sampleProfile flagsByID).2 =
      [("alice", ⟨⟨"users/alice", "newpass123"⟩, ⟨["password"]⟩⟩)] ∧
    BootOK noListWorld sampleProfile ∧
    Run noListWorld sampleProfile flagsByID =
      (.ListUsersFailure "list failed",
        bootCalls sampleProfile ++ [.ListUsers ⟨some 5, none⟩]) :=
  have hin : InputOK flagsByID := by decide
  have hb : BootOK (okWorld sampleUsers) sampleProfile := ⟨rfl, rfl, _, rfl⟩
  have hb' : BootOK noListWorld sampleProfile := ⟨rfl, rfl, _, rfl⟩
  have h := (resolution_precedence (okWorld sampleUsers) sampleProfile flagsByID hin hb).1
    (by decide)
  have h' := (resolution_precedence noListWorld sampleProfile flagsByID hin hb').1
    (by decide)
  ⟨hin, hb, h.1,
    (h.2.2.2 ⟨5, "alice", "alice@example.com"⟩ [] rfl).2.2 (by decide),
    hb', h'.2.1 "list failed" rfl⟩

/-! ## Legacy validation -/

/-- C4: in a run that reaches the legacy validation of a password `pw` (the one
placed in the update request), the command ends at `LegacyValidationFailure`
without an `UpdateUser` call exactly when `len pw < 3` or `512 < len pw`; when
`3 ≤ len pw ≤ 512` the update call is made, with `pw` in its request.  In
particular lengths 2 and 513 fail, lengths 3 and 512 proceed to the update. -/
theorem legacy_validation_bounds (w : World) (profile : Profile) (f : Flags) (pw : String)
    (h : Event.Validate ⟨some pw⟩ ∈ (Run w profile f).2) :
    (((∃ err, (Run w profile f).1 = .LegacyValidationFailure err) ∧
        updates (Run w profile f).2 = []) ↔ (len pw < 3 ∨ 512 < len pw)) ∧
    (3 ≤ len pw ∧ len pw ≤ 512 →
      ∃ username name,
        updates (Run w profile f).2 = [(username, ⟨⟨name, pw⟩, ⟨["password"]⟩⟩)]) ∧
    (len pw = 2 ∨ len pw = 513 →
      (∃ err, (Run w profile f).1 = .LegacyValidationFailure err) ∧
        updates (Run w profile f).2 = []) ∧
    (len pw = 3 ∨ len pw = 512 →
      (∀ err, (Run w profile f).1 ≠ .LegacyValidationFailure err) ∧
        (updates (Run w profile f).2).length = 1) := by
  have hp := run_path w profile f
  generalize Run w profile f = r at h hp ⊢
  have key : ∀ (user : User) (lk : List Event),
      (∀ e ∈ lk, ∃ q, e = Event.ListUsers q) →
      ∀ tl, Event.Validate ⟨some pw⟩ ∈ bootCalls profile ++ lk ++ Event.Validate ⟨some user.Password⟩ :: tl →
      (∀ e ∈ tl, ∀ r, e ≠ Event.Validate r) → user.Password = pw := by
    intro user lk hlk tl hmem htl
    simp only [List.mem_append, List.mem_cons, bootCalls] at hmem
    rcases hmem with (hmem | hmem) | hmem | hmem
    · simp at hmem
    · obtain ⟨q, hq⟩ := hlk _ hmem
      simp at hq
    · simpa using hmem.symm
    · exact absurd rfl (htl _ hmem _)
  have hres : ∀ {username user lk}, Resolved w f username user lk →
      ∀ e ∈ lk, ∃ q, e = Event.ListUsers q := by
    intro username user lk hr
    cases hr <;> simp
  cases hp with
  | missingIdentifier => simp at h
  | missingPassword => simp at h
  | driverInit => simp at h
  | migration => simp at h
  | serverInit => simp [bootCalls] at h
  | listFailureByID => simp [bootCalls] at h
  | notFoundByID => simp [bootCalls] at h
  | listFailureByEmail => simp [bootCalls] at h
  | notFoundByEmail => simp [bootCalls] at h
  | legacyValidation username user lk err _ _ hr hv =>
    have hpw := key user lk (hres hr) [] h (by simp)
    subst hpw
    have hup : updates (bootCalls profile ++ lk ++ [Event.Validate ⟨some user.Password⟩]) = [] := by
      cases hr <;> simp [updates, bootCalls]
    have hbad : len user.Password < 3 ∨ 512 < len user.Password := by
      simp only [Validate] at hv
      split_ifs at hv with h1 h2
      · exact Or.inl h1
      · exact Or.inr h2
    exact ⟨⟨fun _ => hbad, fun _ => ⟨⟨err, rfl⟩, hup⟩⟩, fun hx => by omega,
      fun _ => ⟨⟨err, rfl⟩, hup⟩, fun hx => by omega⟩
  | updateFailure username user lk err _ _ hr hv hupd =>
    have hpw := key user lk (hres hr) _ h (by simp)
    subst hpw
    have hup : updates (bootCalls profile ++ lk ++
        [Event.Validate ⟨some user.Password⟩, Event.UpdateUser username ⟨user, ⟨["password"]⟩⟩]) =
        [(username, ⟨user, ⟨["password"]⟩⟩)] := by
      cases hr <;> simp [updates, bootCalls]
    have hgood : 3 ≤ len user.Password ∧ len user.Password ≤ 512 := by
      simp only [Validate] at hv
      split_ifs at hv with h1 h2
      omega
    dsimp only
    rw [hup]
    exact ⟨⟨fun hx => by simp at hx, fun hx => by omega⟩, fun _ => ⟨username, user.Name, rfl⟩,
      fun hx => by omega, fun _ => ⟨fun err' he => by simp at he, rfl⟩⟩
  | success username user lk updateUser _ _ hr hv hupd =>
    have hpw := key user lk (hres hr) _ h (by simp)
    subst hpw
    have hup : updates (bootCalls profile ++ lk ++
        [Event.Validate ⟨some user.Password⟩, Event.UpdateUser username ⟨user, ⟨["password"]⟩⟩,
          Event.Shutdown]) = [(username, ⟨user, ⟨["password"]⟩⟩)] := by
      cases hr <;> simp [updates, bootCalls]
    have hgood : 3 ≤ len user.Password ∧ len user.Password ≤ 512 := by
      simp only [Validate] at hv
      split_ifs at hv with h1 h2
      omega
    dsimp only
    rw [hup]
    exact ⟨⟨fun hx => by simp at hx, fun hx => by omega⟩, fun _ => ⟨username, user.Name, rfl⟩,
      fun hx => by omega, fun _ => ⟨fun err' he => by simp at he, rfl⟩⟩

set_option maxRecDepth 100000 in
/-- The sample password of 512 bytes has length 512 and reaches the validation. -/
theorem long_password_512 :
    len (longPassword 512) = 512 ∧
    Event.Validate ⟨some (longPassword 512)⟩ ∈
      (Run (okWorld sampleUsers) sampleProfile (flagsLongPassword 512)).2 := by
  decide

set_option maxRecDepth 100000 in
/-- The sample password of 513 bytes has length 513 and reaches the validation. -/
theorem long_password_513 :
    len (longPassword 513) = 513 ∧
    Event.Validate ⟨some (longPassword 513)⟩ ∈
      (Run (okWorld sampleUsers) sampleProfile (flagsLongPassword 513)).2 := by
  decide

/-- Witness for C4: passwords of 2 and of 513 bytes are validated and rejected
without an update call; passwords of 3 and of 512 bytes are validated and the
update call follows. -/
theorem legacy_validation_bounds_witness :
    (Event.Validate ⟨some "ab"⟩ ∈
        (Run (okWorld sampleUsers) sampleProfile flagsShortPassword).2 ∧
      (∃ err, (Run (okWorld sampleUsers) sampleProfile flagsShortPassword).1 =
        .LegacyValidationFailure err) ∧
      updates (Run (okWorld sampleUsers) sampleProfile flagsShortPassword).2 = []) ∧
    (Event.Validate ⟨some "abc"⟩ ∈
        (Run (okWorld sampleUsers) sampleProfile ⟨"", -1, "abc", "bob"⟩).2 ∧
      (updates (Run (okWorld sampleUsers) sampleProfile ⟨"", -1, "abc", "bob"⟩).2).length = 1) ∧
    ((∀ err, (Run (okWorld sampleUsers) sampleProfile (flagsLongPassword 512)).1 ≠
        .LegacyValidationFailure err) ∧
      (updates (Run (okWorld sampleUsers) sampleProfile (flagsLongPassword 512)).2).length = 1) ∧
    ((∃ err, (Run (okWorld sampleUsers) sampleProfile (flagsLongPassword 513)).1 =
        .LegacyValidationFailure err) ∧
      updates (Run (okWorld sampleUsers) sampleProfile (flagsLongPassword 513)).2 = []) :=
  ⟨⟨by decide,
      (legacy_validation_bounds (okWorld sampleUsers) sampleProfile flagsShortPassword "ab"
        (by decide)).2.2.1 (Or.inl (by decide))⟩,
    ⟨by decide,
      ((legacy_validation_bounds (okWorld sampleUsers) sampleProfile ⟨"", -1, "abc", "bob"⟩ "abc"
        (by decide)).2.2.2 (Or.inl (by decide))).2⟩,
    (legacy_validation_bounds (okWorld sampleUsers) sampleProfile (flagsLongPassword 512)
      (longPassword 512) long_password_512.2).2.2.2 (Or.inr long_password_512.1),
    (legacy_validation_bounds (okWorld sampleUsers) sampleProfile (flagsLongPassword 513)
      (longPassword 513) long_password_513.2).2.2.1 (Or.inr long_password_513.1)⟩

/-- C5: the code at the input `--username bob --password " a "`.  The supplied
password has length 3 with its surrounding blanks, so checked as supplied it
is within the bounds; but line 102 puts the trimmed string `"a"` in the request,
that is what the legacy check sees, and the run ends at
`LegacyValidationFailure` without an update.  The same password with `--id 5`
(line 95) is checked as supplied, accepted, and sent to `UpdateUser`. -/
theorem padded_password_rejected :
    len flagsPaddedPassword.password = 3 ∧
    Validate ⟨some flagsPaddedPassword.password⟩ = none ∧
    Run (okWorld sampleUsers) sampleProfile flagsPaddedPassword =
      (.LegacyValidationFailure .passwordTooShort,
        [.NewDBDriver ⟨8081⟩, .Migrate, .NewServer ⟨8076⟩, .Validate ⟨some "a"⟩]) ∧
    Run (okWorld sampleUsers) sampleProfile ⟨"", 5, " a ", ""⟩ =
      (.Success ⟨"users/alice", " a "⟩,
        [.NewDBDriver ⟨8081⟩, .Migrate, .NewServer ⟨8076⟩, .ListUsers ⟨some 5, none⟩,
          .Validate ⟨some " a "⟩,
          .UpdateUser "alice" ⟨⟨"users/alice", " a "⟩, ⟨["password"]⟩⟩, .Shutdown]) := by
  decide

/-! ## Lookup misses -/

/-- C6: in a run that reaches the resolution, when resolution is by id and
`ListUsers` returns no row the command ends at `UserNotFound` carrying the id;
when resolution is by email and `ListUsers` returns no row it ends at
`UserNotFound` carrying the (trimmed) email.  In both cases the trace stops at
the lookup: the legacy validation is not run and `UpdateUser` is not called. -/
theorem lookup_miss (w : World) (profile : Profile) (f : Flags)
    (hin : InputOK f) (hb : BootOK w profile) :
    (f.id ≠ -1 → w.ListUsers ⟨some f.id, none⟩ = .ok [] →
      Run w profile f =
        (.UserNotFoundByID f.id, bootCalls profile ++ [.ListUsers ⟨some f.id, none⟩]) ∧
      validations (Run w profile f).2 = [] ∧ updates (Run w profile f).2 = []) ∧
    (f.id = -1 → TrimSpace f.username = "" →
      w.ListUsers ⟨none, some (TrimSpace f.email)⟩ = .ok [] →
      Run w profile f =
        (.UserNotFoundByEmail (TrimSpace f.email),
          bootCalls profile ++ [.ListUsers ⟨none, some (TrimSpace f.email)⟩]) ∧
      validations (Run w profile f).2 = [] ∧ updates (Run w profile f).2 = []) := by
  obtain ⟨hc, hp⟩ := hin
  obtain ⟨hd, hm, s, hs⟩ := hb
  have hs' : w.NewServer { Port := wrapInt64 (profile.Port - 5) } = .ok s := hs
  constructor
  · intro hid hl
    have hrun : Run w profile f =
        (.UserNotFoundByID f.id, bootCalls profile ++ [.ListUsers ⟨some f.id, none⟩]) := by
      simp [Run, resolve, hp, hd, hm, hs', hid, hl, bootCalls, shifted]
    rw [hrun]
    simp [validations, updates, bootCalls]
  · intro hid hu hl
    have he : TrimSpace f.email ≠ "" := fun he => hc ⟨hu, he, hid⟩
    have hrun : Run w profile f =
        (.UserNotFoundByEmail (TrimSpace f.email),
          bootCalls profile ++ [.ListUsers ⟨none, some (TrimSpace f.email)⟩]) := by
      simp [Run, resolve, hp, hd, hm, hs', hid, hu, he, hl, bootCalls, shifted]
    rw [hrun]
    simp [validations, updates, bootCalls]

/-- Witness for C6: `--id 999` against a store without such a row. -/
theorem lookup_miss_witness :
    InputOK flagsUnknownID ∧ BootOK (okWorld sampleUsers) sampleProfile ∧
    Run (okWorld sampleUsers) sampleProfile flagsUnknownID =
      (.UserNotFoundByID 999,
        bootCalls sampleProfile ++ [.ListUsers ⟨some 999, none⟩]) ∧
    validations (Run (okWorld sampleUsers) sampleProfile flagsUnknownID).2 = [] ∧
    updates (Run (okWorld sampleUsers) sampleProfile flagsUnknownID).2 = [] :=
  have hin : InputOK flagsUnknownID := by decide
  have hb : BootOK (okWorld sampleUsers) sampleProfile := ⟨rfl, rfl, _, rfl⟩
  ⟨hin, hb, (lookup_miss (okWorld sampleUsers) sampleProfile flagsUnknownID hin hb).1
    (by decide) rfl⟩

/-! ## The update request -/

/-- C7: every `UpdateUser` request of every run carries the field mask whose
paths are exactly `["password"]`. -/
theorem update_mask_is_password (w : World) (profile : Profile) (f : Flags)
    (username : String) (req : UpdateUserRequest)
    (h : Event.UpdateUser username req ∈ (Run w profile f).2) :
    req.UpdateMask.Paths = ["password"] := by
  have hp := run_path w profile f
  generalize Run w profile f = r at h hp
  cases hp with
  | missingIdentifier => simp at h
  | missingPassword => simp at h
  | driverInit => simp at h
  | migration => simp at h
  | serverInit => simp [bootCalls] at h
  | listFailureByID => simp [bootCalls] at h
  | notFoundByID => simp [bootCalls] at h
  | listFailureByEmail => simp [bootCalls] at h
  | notFoundByEmail => simp [bootCalls] at h
  | legacyValidation _ _ _ _ _ _ hr _ => cases hr <;> simp [bootCalls] at h
  | updateFailure _ _ _ _ _ _ hr _ _ =>
    cases hr <;> simp [bootCalls] at h <;> simp [h.2]
  | success _ _ _ _ _ _ hr _ _ =>
    cases hr <;> simp [bootCalls] at h <;> simp [h.2]

/-- Witness for C7: the update issued for `--username "  bob  "`. -/
theorem update_mask_is_password_witness :
    Event.UpdateUser "bob" ⟨⟨"users/bob", "newpass123"⟩, ⟨["password"]⟩⟩ ∈
      (Run (okWorld sampleUsers) sampleProfile flagsByUsername).2 ∧
    (UpdateUserRequest.mk ⟨"users/bob", "newpass123"⟩ ⟨["password"]⟩).UpdateMask.Paths =
      ["password"] :=
  ⟨by decide, update_mask_is_password (okWorld sampleUsers) sampleProfile flagsByUsername
    "bob" _ (by decide)⟩

/-! ## The username selector -/

/-- C8: with `id = -1` and a username that is not empty after trimming, the
canonical username is the trimmed username: no `ListUsers` call is made, every
`UpdateUser` call carries the trimmed username in its context and addresses
`"users/" ++` that same string, and when the bootstrap succeeds and the trimmed
password passes the legacy validation that call is made. -/
theorem username_trimmed_no_lookup (w : World) (profile : Profile) (f : Flags)
    (hid : f.id = -1) (hu : TrimSpace f.username ≠ "") :
    lookups (Run w profile f).2 = [] ∧
    (∀ username req, Event.UpdateUser username req ∈ (Run w profile f).2 →
      username = TrimSpace f.username ∧ req.User.Name = "users/" ++ TrimSpace f.username) ∧
    (BootOK w profile → Validate ⟨some (TrimSpace f.password)⟩ = none →
      updates (Run w profile f).2 =
        [(TrimSpace f.username,
          ⟨⟨"users/" ++ TrimSpace f.username, TrimSpace f.password⟩, ⟨["password"]⟩⟩)]) := by
  have hp := run_path w profile f
  generalize Run w profile f = r at hp ⊢
  cases hp with
  | missingIdentifier h1 => exact absurd h1 hu
  | missingPassword _ h2 =>
    refine ⟨by simp [lookups], by simp, fun _ hv => ?_⟩
    rw [h2] at hv
    exact absurd hv (by decide)
  | driverInit err _ hd =>
    exact ⟨by simp [lookups], by simp, fun hb _ => by simp [hb.1] at hd⟩
  | migration err _ _ hm =>
    exact ⟨by simp [lookups], by simp, fun hb _ => by simp [hb.2.1] at hm⟩
  | serverInit err _ _ _ hs =>
    refine ⟨by simp [lookups, bootCalls], by simp [bootCalls], fun hb _ => ?_⟩
    obtain ⟨_, _, s, hs'⟩ := hb
    simp [hs'] at hs
  | listFailureByID _ _ _ h => exact absurd hid h
  | notFoundByID _ _ h => exact absurd hid h
  | listFailureByEmail _ _ _ _ h => exact absurd h hu
  | notFoundByEmail _ _ _ h => exact absurd h hu
  | legacyValidation username user lk err _ _ hr hv =>
    cases hr with
    | byID _ _ h => exact absurd hid h
    | byUsername =>
      exact ⟨by simp [lookups, bootCalls], by simp [bootCalls],
        fun _ hv' => by simp [hv'] at hv⟩
    | byEmail _ _ _ h => exact absurd h hu
  | updateFailure username user lk err _ _ hr hv hupd =>
    cases hr with
    | byID _ _ h => exact absurd hid h
    | byUsername => simp [lookups, updates, bootCalls, userName]
    | byEmail _ _ _ h => exact absurd h hu
  | success username user lk updateUser _ _ hr hv hupd =>
    cases hr with
    | byID _ _ h => exact absurd hid h
    | byUsername => simp [lookups, updates, bootCalls, userName]
    | byEmail _ _ _ h => exact absurd h hu

/-- Witness for C8: `--username "  bob  "` resolves to `"bob"`. -/
theorem username_trimmed_no_lookup_witness :
    TrimSpace flagsByUsername.username = "bob" ∧
    lookups (Run (okWorld sampleUsers) sampleProfile flagsByUsername).2 = [] ∧
    updates (Run (okWorld sampleUsers) sampleProfile flagsByUsername).2 =
      [("bob", ⟨⟨"users/bob", "newpass123"⟩, ⟨["password"]⟩⟩)] :=
  have h := username_trimmed_no_lookup (okWorld sampleUsers) sampleProfile flagsByUsername
    (by decide) (by decide)
  ⟨by decide, h.1, h.2.2 ⟨rfl, rfl, _, rfl⟩ (by decide)⟩

/-! ## Ordering of the calls -/

/-- C9: a run calls `UpdateUser` at most once.  When it does, the input checks
have passed, the driver open, the migration and the server construction have
succeeded, the switch has resolved the target, the legacy validation has
accepted the password, and in the trace the call comes after all of these, with
nothing but the shutdown after it.  A run that ends at a return site before the
update step has called `UpdateUser` zero times. -/
theorem update_at_most_once (w : World) (profile : Profile) (f : Flags) :
    (updates (Run w profile f).2).length ≤ 1 ∧
    (∀ username req, Event.UpdateUser username req ∈ (Run w profile f).2 →
      InputOK f ∧ BootOK w profile ∧ Validate ⟨some req.User.Password⟩ = none ∧
      ∃ lk post,
        resolve w (TrimSpace f.username) (TrimSpace f.email) f = (.ok (username, req.User), lk) ∧
        (Run w profile f).2 =
          bootCalls profile ++ lk ++
            [.Validate ⟨some req.User.Password⟩, .UpdateUser username req] ++ post ∧
        (post = [] ∨ post = [.Shutdown])) ∧
    ((Run w profile f).1.beforeUpdate = true → updates (Run w profile f).2 = []) := by
  have hp := run_path w profile f
  generalize Run w profile f = r at hp ⊢
  cases hp with
  | missingIdentifier => simp [updates]
  | missingPassword => simp [updates]
  | driverInit => simp [updates]
  | migration => simp [updates]
  | serverInit => simp [updates, bootCalls]
  | listFailureByID => simp [updates, bootCalls]
  | notFoundByID => simp [updates, bootCalls]
  | listFailureByEmail => simp [updates, bootCalls]
  | notFoundByEmail => simp [updates, bootCalls]
  | legacyValidation username user lk err _ _ hr hv =>
    rcases resolved_calls w f username user lk hr with h | ⟨q, h⟩ <;>
      simp [h, updates, bootCalls]
  | updateFailure username user lk err hin hb hr hv hupd =>
    have hres := resolve_of_resolved w f username user lk hr
    refine ⟨?_, ?_, by simp [Outcome.beforeUpdate]⟩
    · rcases resolved_calls w f username user lk hr with h | ⟨q, h⟩ <;>
        simp [h, updates, bootCalls]
    · intro username' req hmem
      have heq : username' = username ∧ req = ⟨user, ⟨["password"]⟩⟩ := by
        rcases resolved_calls w f username user lk hr with h | ⟨q, h⟩ <;>
          simpa [h, bootCalls] using hmem
      obtain ⟨rfl, rfl⟩ := heq
      exact ⟨hin, hb, hv, lk, [], hres, by simp, Or.inl rfl⟩
  | success username user lk updateUser hin hb hr hv hupd =>
    have hres := resolve_of_resolved w f username user lk hr
    refine ⟨?_, ?_, by simp [Outcome.beforeUpdate]⟩
    · rcases resolved_calls w f username user lk hr with h | ⟨q, h⟩ <;>
        simp [h, updates, bootCalls]
    · intro username' req hmem
      have heq : username' = username ∧ req = ⟨user, ⟨["password"]⟩⟩ := by
        rcases resolved_calls w f username user lk hr with h | ⟨q, h⟩ <;>
          simpa [h, bootCalls] using hmem
      obtain ⟨rfl, rfl⟩ := heq
      exact ⟨hin, hb, hv, lk, [.Shutdown], hres, by simp, Or.inr rfl⟩

/-- C10: in the trace of a run, every `ListUsers` or `UpdateUser` call stands
behind a driver open followed by a migration, both of which succeeded.  If the
driver open fails no migration is attempted, and if the driver open or the
migration fails (the run ending at `DriverInitFailure` or `MigrationFailure`)
no `ListUsers` or `UpdateUser` call is made. -/
theorem bootstrap_before_user_data (w : World) (profile : Profile) (f : Flags) :
    (∀ pre e post, (Run w profile f).2 = pre ++ e :: post → e.isUserData = true →
      w.NewDBDriver profile = .ok () ∧ w.Migrate = .ok () ∧
      ∃ rest, pre = .NewDBDriver profile :: .Migrate :: rest) ∧
    (∀ err, w.NewDBDriver profile = .error err →
      Event.Migrate ∉ (Run w profile f).2 ∧
      ∀ e ∈ (Run w profile f).2, e.isUserData = false) ∧
    (∀ err, w.Migrate = .error err → ∀ e ∈ (Run w profile f).2, e.isUserData = false) ∧
    (∀ err, (Run w profile f).1 = .DriverInitFailure err ∨
        (Run w profile f).1 = .MigrationFailure err →
      ∀ e ∈ (Run w profile f).2, e.isUserData = false) := by
  refine ⟨?_, ?_, ?_, ?_⟩
  · intro pre e post htr he
    rcases boot_first w profile f with h | ⟨hd, hm, rest, hrest⟩
    · have : e ∈ (Run w profile f).2 := by rw [htr]; simp
      rw [h e this] at he
      exact absurd he (by decide)
    · refine ⟨hd, hm, ?_⟩
      rw [hrest] at htr
      exact behind_first_two _ _ e rest pre post htr
        (by rintro rfl; simp [Event.isUserData] at he)
        (by rintro rfl; simp [Event.isUserData] at he)
  · intro err herr
    rcases boot_first w profile f with h | ⟨hd, _⟩
    · refine ⟨?_, h⟩
      have hp := run_path w profile f
      generalize Run w profile f = r at hp ⊢
      cases hp with
      | missingIdentifier => simp
      | missingPassword => simp
      | driverInit => simp
      | migration _ _ hd => simp [herr] at hd
      | serverInit _ _ hd => simp [herr] at hd
      | listFailureByID _ _ hb => exact absurd (herr.symm.trans hb.1) (by simp)
      | notFoundByID _ hb => exact absurd (herr.symm.trans hb.1) (by simp)
      | listFailureByEmail _ _ hb => exact absurd (herr.symm.trans hb.1) (by simp)
      | notFoundByEmail _ hb => exact absurd (herr.symm.trans hb.1) (by simp)
      | legacyValidation _ _ _ _ _ hb => exact absurd (herr.symm.trans hb.1) (by simp)
      | updateFailure _ _ _ _ _ hb => exact absurd (herr.symm.trans hb.1) (by simp)
      | success _ _ _ _ _ hb => exact absurd (herr.symm.trans hb.1) (by simp)
    · simp [herr] at hd
  · intro err herr
    rcases boot_first w profile f with h | ⟨_, hm, _⟩
    · exact h
    · simp [herr] at hm
  · intro err hout
    have hp := run_path w profile f
    generalize Run w profile f = r at hp hout ⊢
    cases hp <;> simp_all [Event.isUserData]

/-- Witness for C9: a run that resolves by email and updates once. -/
theorem update_at_most_once_witness :
    Event.UpdateUser "alice" ⟨⟨"users/alice", "newpass123"⟩, ⟨["password"]⟩⟩ ∈
      (Run (okWorld sampleUsers) sampleProfile flagsByEmail).2 ∧
    (updates (Run (okWorld sampleUsers) sampleProfile flagsByEmail).2).length ≤ 1 ∧
    InputOK flagsByEmail ∧ BootOK (okWorld sampleUsers) sampleProfile ∧
    (Outcome.UserNotFoundByEmail "nobody@example.com").beforeUpdate = true ∧
    updates (Run (okWorld sampleUsers) sampleProfile flagsUnknownEmail).2 = [] :=
  have h := update_at_most_once (okWorld sampleUsers) sampleProfile flagsByEmail
  have h' := h.2.1 "alice" ⟨⟨"users/alice", "newpass123"⟩, ⟨["password"]⟩⟩ (by decide)
  ⟨by decide, h.1, h'.1, h'.2.1, by decide,
    (update_at_most_once (okWorld sampleUsers) sampleProfile flagsUnknownEmail).2.2 (by decide)⟩

/-- Witness for C10: when the driver cannot be opened the trace holds the
failed open only; when all goes well the lookup stands behind open and
migration. -/
theorem bootstrap_before_user_data_witness :
    (Event.Migrate ∉ (Run noDriverWorld sampleProfile flagsByID).2 ∧
      ∀ e ∈ (Run noDriverWorld sampleProfile flagsByID).2, e.isUserData = false) ∧
    (∀ e ∈ (Run noMigrateWorld sampleProfile flagsByID).2, e.isUserData = false) ∧
    ((Run (okWorld sampleUsers) sampleProfile flagsByID).2 =
        [.NewDBDriver sampleProfile, .Migrate, .NewServer (shifted sampleProfile)] ++
          .ListUsers ⟨some 5, none⟩ ::
            [.Validate ⟨some "newpass123"⟩,
              .UpdateUser "alice" ⟨⟨"users/alice", "newpass123"⟩, ⟨["password"]⟩⟩, .Shutdown] ∧
      (okWorld sampleUsers).NewDBDriver sampleProfile = .ok () ∧
      (okWorld sampleUsers).Migrate = .ok ()) :=
  have htr : (Run (okWorld sampleUsers) sampleProfile flagsByID).2 =
      [.NewDBDriver sampleProfile, .Migrate, .NewServer (shifted sampleProfile)] ++
        .ListUsers ⟨some 5, none⟩ ::
          [.Validate ⟨some "newpass123"⟩,
            .UpdateUser "alice" ⟨⟨"users/alice", "newpass123"⟩, ⟨["password"]⟩⟩, .Shutdown] := by
    decide
  have h := (bootstrap_before_user_data (okWorld sampleUsers) sampleProfile flagsByID).1
    _ _ _ htr rfl
  ⟨(bootstrap_before_user_data noDriverWorld sampleProfile flagsByID).2.1 "no driver" rfl,
    (bootstrap_before_user_data noMigrateWorld sampleProfile flagsByID).2.2.1
      "migration failed" rfl,
    htr, h.1, h.2.1⟩

end ResetPassword
